import Mathlib

/-!
Verification development for the TecLegacy marketplace: a shallow embedding
of the cart / checkout / payment views (`cart/views.py`) and of the chatbot
query resolver (`chatbot/views.py`), together with theorems about them.

Conventions of the embedding:
* the relational store is an explicit `Store` record of lists of rows;
* each Django view becomes a pure function `Store → args → Store × Resp`;
* machine integers are `Int` (Python ints are unbounded, and negative
  quantities are representable because the views never validate them);
* the nondeterministic `uuid4().hex[:16].upper()` of `payment_execute` is
  passed in as an explicit `freshHex` argument;
* HTTP lookups that 404 (`get_object_or_404`) return a `notFound` response
  leaving the store unchanged.
-/

structure Product where
  id : Nat
  name : List Char
  description : List Char
  categoryName : List Char
  price : Int
  is_available : Bool
deriving DecidableEq

structure Category where
  name : List Char
  is_active : Bool
deriving DecidableEq

structure CartItem where
  id : Nat
  cartId : Nat
  productId : Nat
  quantity : Int
deriving DecidableEq

structure Order where
  id : Nat
  userId : Nat
  first_name : String
  last_name : String
  email : String
  phone : String
  address : String
  city : String
  country : String
  postal_code : String
  total_paid : Int
  payment_method : String
  payment_status : String
  payment_reference : String
  status : String
deriving DecidableEq

structure OrderItem where
  orderId : Nat
  productId : Nat
  price : Int
  quantity : Int
deriving DecidableEq

structure Store where
  products : List Product
  cartItems : List CartItem
  orders : List Order
  orderItems : List OrderItem
deriving DecidableEq

/-- Foreign-key dereference `item.product`: first product row with this id. -/
def productById (s : Store) (pid : Nat) : Option Product :=
  s.products.find? (fun p => p.id == pid)

/-- Current catalog price of a product (`product.price`). -/
def priceOf (s : Store) (pid : Nat) : Int :=
  ((productById s pid).map Product.price).getD 0

/-- The rows of `cart.items.all()` for the cart `cid`. -/
def cartItemsOf (s : Store) (cid : Nat) : List CartItem :=
  s.cartItems.filter (fun ci => ci.cartId == cid)

/-- Modelled from the spec: `cart/models.py` is not in the sources; §4.1 gives
`CartItem.get_cost` as quantity × product.price read at call time. -/
def get_cost (s : Store) (ci : CartItem) : Int :=
  ci.quantity * priceOf s ci.productId

/-- Modelled from the spec: `cart/models.py` is not in the sources; §4.1 gives
`Cart.get_total_items` as Σ quantity over the cart items. -/
def get_total_items (s : Store) (cid : Nat) : Int :=
  ((cartItemsOf s cid).map CartItem.quantity).sum

/-- Modelled from the spec: `cart/models.py` is not in the sources; §4.1 gives
`Cart.get_total_price` as Σ quantity × product.price, recomputed on every read. -/
def get_total_price (s : Store) (cid : Nat) : Int :=
  ((cartItemsOf s cid).map (fun ci => ci.quantity * priceOf s ci.productId)).sum

inductive AddResp where
  | notFound
  | added (cart_items_count : Int) (cart_total : Int)
deriving DecidableEq

/-- `add_to_cart` (AJAX path of `cart/views.py:41`): 404 unless the product
exists and is available; add `quantity` to an existing row for the same
(cart, product) pair, else create a fresh row with that quantity. The view
performs no validation of `quantity`. `freshId` is the new row's primary key. -/
def add_to_cart (s : Store) (cid freshId productId : Nat) (quantity : Int) :
    Store × AddResp :=
  match s.products.find? (fun p => p.id == productId && p.is_available) with
  | none => (s, .notFound)
  | some _ =>
    let s' :=
      match s.cartItems.find? (fun ci => ci.cartId == cid && ci.productId == productId) with
      | some _ =>
        { s with cartItems := s.cartItems.map (fun ci =>
            if ci.cartId == cid && ci.productId == productId then
              { ci with quantity := ci.quantity + quantity }
            else ci) }
      | none =>
        { s with cartItems := s.cartItems ++ [⟨freshId, cid, productId, quantity⟩] }
    (s', .added (get_total_items s' cid) (get_total_price s' cid))

inductive UpdateResp where
  | notFound
  | removed (cart_total cart_items_count : Int)
  | updated (item_total quantity cart_total cart_items_count : Int)
deriving DecidableEq

/-- `update_cart` (`cart/views.py:83`, POST+AJAX path): 404 unless the item
exists; `increase` adds 1; `decrease` subtracts 1 when quantity > 1 and
deletes the row otherwise; `remove` deletes the row; any other action string
falls through every branch, saves the unchanged row and still answers with
the success JSON. -/
def update_cart (s : Store) (itemId : Nat) (action : String) : Store × UpdateResp :=
  match s.cartItems.find? (fun ci => ci.id == itemId) with
  | none => (s, .notFound)
  | some ci =>
    if action = "increase" then
      let s' := { s with cartItems := s.cartItems.map (fun c =>
        if c.id == itemId then { c with quantity := c.quantity + 1 } else c) }
      (s', .updated (get_cost s' { ci with quantity := ci.quantity + 1 })
        (ci.quantity + 1) (get_total_price s' ci.cartId) (get_total_items s' ci.cartId))
    else if action = "decrease" then
      if ci.quantity > 1 then
        let s' := { s with cartItems := s.cartItems.map (fun c =>
          if c.id == itemId then { c with quantity := c.quantity - 1 } else c) }
        (s', .updated (get_cost s' { ci with quantity := ci.quantity - 1 })
          (ci.quantity - 1) (get_total_price s' ci.cartId) (get_total_items s' ci.cartId))
      else
        let s' := { s with cartItems := s.cartItems.filter (fun c => !(c.id == itemId)) }
        (s', .removed (get_total_price s' ci.cartId) (get_total_items s' ci.cartId))
    else if action = "remove" then
      let s' := { s with cartItems := s.cartItems.filter (fun c => !(c.id == itemId)) }
      (s', .removed (get_total_price s' ci.cartId) (get_total_items s' ci.cartId))
    else
      (s, .updated (get_cost s ci) ci.quantity
        (get_total_price s ci.cartId) (get_total_items s ci.cartId))

/-- The `required_fields` list of `checkout` (`cart/views.py:140`), in source
order. -/
def requiredFields : List String :=
  ["first_name", "last_name", "email", "phone", "address", "city", "country",
   "postal_code", "payment_method"]

/-- `request.POST.get(field)`: the POST body as an association list. -/
def postGet (post : List (String × String)) (f : String) : Option String :=
  (post.find? (fun kv => kv.1 == f)).map Prod.snd

/-- `request.POST.get(field)` with default `""` (used after validation). -/
def postGetD (post : List (String × String)) (f : String) : String :=
  (postGet post f).getD ""

/-- Truthiness test `not request.POST.get(field)`: absent or empty. -/
def fieldMissing (post : List (String × String)) (f : String) : Bool :=
  match postGet post f with
  | none => true
  | some v => v == ""

inductive CheckoutResp where
  | emptyCartRedirect
  | fieldError (field : String)
  | created (orderId : Nat)
deriving DecidableEq

/-- One committed database write of the checkout POST body. Django runs in
autocommit mode here (no `transaction.atomic` in the view, no
`ATOMIC_REQUESTS` in `TecLegacy/settings.py`), so each write commits on its
own and a failure between writes leaves the earlier writes in place. -/
inductive WriteStep where
  | putOrder (o : Order)
  | putOrderItem (oi : OrderItem)
  | clearCart (cid : Nat)
deriving DecidableEq

def applyStep (s : Store) : WriteStep → Store
  | .putOrder o => { s with orders := s.orders ++ [o] }
  | .putOrderItem oi => { s with orderItems := s.orderItems ++ [oi] }
  | .clearCart cid =>
    { s with cartItems := s.cartItems.filter (fun ci => !(ci.cartId == cid)) }

def runSteps (s : Store) (steps : List WriteStep) : Store :=
  steps.foldl applyStep s

/-- The ordered writes of the checkout POST success path
(`cart/views.py:149`-`173`): `Order.objects.create`, then one
`OrderItem.objects.create` per cart line snapshotting `item.product.price`,
then `cart.items.all().delete()`. `payment_status`/`status` defaults are
modelled from the spec (`cart/models.py` is not in the sources): initial
payment state is the pending value, reference empty. -/
def checkoutWrites (s : Store) (cid uid : Nat) (post : List (String × String))
    (oid : Nat) : List WriteStep :=
  let order : Order :=
    { id := oid, userId := uid,
      first_name := postGetD post "first_name",
      last_name := postGetD post "last_name",
      email := postGetD post "email",
      phone := postGetD post "phone",
      address := postGetD post "address",
      city := postGetD post "city",
      country := postGetD post "country",
      postal_code := postGetD post "postal_code",
      total_paid := get_total_price s cid,
      payment_method := postGetD post "payment_method",
      payment_status := "pendiente", payment_reference := "", status := "pendiente" }
  .putOrder order ::
    ((cartItemsOf s cid).map (fun ci =>
      WriteStep.putOrderItem ⟨oid, ci.productId, priceOf s ci.productId, ci.quantity⟩))
    ++ [.clearCart cid]

/-- `checkout` (`cart/views.py:128`), POST path: redirect away when the cart
is empty; otherwise reject on the first field of `requiredFields` that is
absent or empty; otherwise run every checkout write. `oid` is the fresh
primary key handed out by the store. -/
def checkout (s : Store) (cid uid : Nat) (post : List (String × String))
    (oid : Nat) : Store × CheckoutResp :=
  if (cartItemsOf s cid).length = 0 then (s, .emptyCartRedirect)
  else
    match requiredFields.find? (fieldMissing post) with
    | some f => (s, .fieldError f)
    | none => (runSteps s (checkoutWrites s cid uid post oid), .created oid)

/-- `get_object_or_404(Order, id=order_id, user=request.user)`: the ownership
check every payment view performs. -/
def findOrder (s : Store) (oid uid : Nat) : Option Order :=
  s.orders.find? (fun o => o.id == oid && o.userId == uid)

inductive PayResp where
  | notFound
  | redirectSuccess (oid : Nat)
  | renderPayment (oid : Nat)
  | redirectCheckout
deriving DecidableEq

/-- `payment_process` (`cart/views.py:201`): if the payment is already
`completado`, redirect straight to the success view; else render the payment
page. The store is never modified. -/
def payment_process (s : Store) (oid uid : Nat) : Store × PayResp :=
  match findOrder s oid uid with
  | none => (s, .notFound)
  | some o =>
    if o.payment_status = "completado" then (s, .redirectSuccess oid)
    else (s, .renderPayment oid)

/-- `payment_execute` (`cart/views.py:222`), POST path: take the posted
`payment_id`, or a generated `"PAY-" ++ uuid4().hex[:16].upper()` when it is
empty (`freshHex` stands for the sixteen uppercase hex characters); then
unconditionally set `payment_status := "completado"`,
`payment_reference := payment_id`, `status := "procesando"` and save. -/
def payment_execute (s : Store) (oid uid : Nat) (payment_id freshHex : String) :
    Store × PayResp :=
  match findOrder s oid uid with
  | none => (s, .notFound)
  | some _ =>
    let pid := if payment_id = "" then "PAY-" ++ freshHex else payment_id
    let s' := { s with orders := s.orders.map (fun o =>
      if o.id == oid && o.userId == uid then
        { o with payment_status := "completado", payment_reference := pid,
                 status := "procesando" }
      else o) }
    (s', .redirectSuccess oid)

/-- `payment_cancel` (`cart/views.py:260`): set `payment_status := "fallido"`
and save; nothing else is touched. -/
def payment_cancel (s : Store) (oid uid : Nat) : Store × PayResp :=
  match findOrder s oid uid with
  | none => (s, .notFound)
  | some _ =>
    let s' := { s with orders := s.orders.map (fun o =>
      if o.id == oid && o.userId == uid then { o with payment_status := "fallido" }
      else o) }
    (s', .redirectCheckout)

/-- An admin-side price edit on the catalog: the only store mutation other
than the views, used to state the snapshot/decoupling properties. -/
def setProductPrice (s : Store) (pid : Nat) (np : Int) : Store :=
  { s with products := s.products.map (fun p =>
    if p.id == pid then { p with price := np } else p) }

/-- Lower-casing of `query = data.get("query", "").lower()`. -/
def lowerL (cs : List Char) : List Char := cs.map Char.toLower

/-- Boolean list-prefix test used by the substring and regex models. -/
def isPrefixL : List Char → List Char → Bool
  | [], _ => true
  | _ :: _, [] => false
  | a :: as, b :: bs => a == b && isPrefixL as bs

/-- Python `needle in hay` on strings: contiguous substring containment. -/
def containsSub (needle : List Char) : List Char → Bool
  | [] => isPrefixL needle []
  | c :: t => isPrefixL needle (c :: t) || containsSub needle t

/-- Decimal value of a digit run. -/
def natOfDigits (ds : List Char) : Nat :=
  ds.foldl (fun n c => 10 * n + (c.toNat - 48)) 0

/-- The four literal alternatives of the price regex
`r"menos de (\d+)|bajo (\d+)|maximo (\d+)|hasta (\d+)"`, each a literal
prefix directly followed by the captured digit run. -/
def priceAlternatives : List (List Char) :=
  (["menos de ", "bajo ", "maximo ", "hasta "].map String.data)

/-- Try one regex alternative at the current position: literal prefix, then a
maximal nonempty digit run (greedy `\d+`). -/
def matchNumAt (pat s : List Char) : Option Nat :=
  if isPrefixL pat s then
    let ds := (s.drop pat.length).takeWhile Char.isDigit
    if ds.isEmpty then none else some (natOfDigits ds)
  else none

/-- All alternatives tried in pattern order at one position. (Their literal
prefixes pairwise diverge, so at most one can match at a given position.) -/
def firstAltAt (s : List Char) : Option Nat :=
  priceAlternatives.findSome? (fun pat => matchNumAt pat s)

/-- `re.search` of the price pattern: leftmost position with a match; the
returned value is the first non-empty captured group as an integer. -/
def priceSearch : List Char → Option Nat
  | [] => none
  | c :: t =>
    match firstAltAt (c :: t) with
    | some n => some n
    | none => priceSearch t

/-- `max_price`: the captured value times 1000 (`chatbot/views.py:51`), when
the regex matched. -/
def maxPriceOf (query : List Char) : Option Int :=
  (priceSearch query).map (fun n => (n : Int) * 1000)

/-- The fixed greeting phrase list (`chatbot/views.py:58`). -/
def greetings : List (List Char) :=
  (["hola", "hey", "saludos", "buenos días", "buenas tardes", "buenas noches"].map
    String.data)

/-- The fixed help phrase list (`chatbot/views.py:59`). -/
def help_keywords : List (List Char) :=
  (["ayuda", "ayudame", "como funciona", "que haces"].map String.data)

/-- The fixed greeting response (`chatbot/views.py:62`). -/
def greetingResponse : String :=
  "¡Hola! Soy el asistente de TecLegacy. Puedo ayudarte a encontrar productos gaming y tecnología. ¿Qué estás buscando hoy?"

/-- The fixed help response (`chatbot/views.py:71`); apostrophes written as
`\x27`. -/
def helpResponse : String :=
  "Puedo ayudarte a encontrar productos en nuestra tienda. Prueba preguntándome por productos específicos como \x27muéstrame teclados gaming\x27 o \x27busco un monitor de 27 pulgadas\x27. También puedes indicarme un rango de precio como \x27monitores por menos de 500\x27."

/-- The catalog the chatbot reads: products plus categories. -/
structure Catalog where
  products : List Product
  categories : List Category
deriving DecidableEq

/-- The ordered `category_keywords` table (`chatbot/views.py:21`): trigger
substring to category name, or `none` meaning match the trigger against the
product name instead. -/
def category_keywords : List (List Char × Option (List Char)) :=
  ([("portatil", some "Portátiles Gaming"), ("laptop", some "Portátiles Gaming"),
    ("notebook", some "Portátiles Gaming"), ("gaming", none), ("juego", none),
    ("teclado", some "Periféricos"), ("mouse", some "Periféricos"),
    ("raton", some "Periféricos"), ("auricular", some "Periféricos"),
    ("cascos", some "Periféricos"), ("tarjeta", some "Componentes"),
    ("grafica", some "Componentes"), ("procesador", some "Componentes"),
    ("cpu", some "Componentes"), ("placa", some "Componentes"),
    ("monitor", some "Monitores"), ("pantalla", some "Monitores"),
    ("silla", some "Sillas Gaming")]
    : List (String × Option String)).map (fun kv => (kv.1.data, kv.2.map String.data))

/-- One iteration of the keyword loop (`chatbot/views.py:81`-`92`): if the
trigger occurs in the query, narrow by category when the named category
exists (`Category.DoesNotExist` is swallowed, flag untouched), or by
name containment for the `none` triggers; the Bool is
`category_filter_applied`. -/
def applyCategoryKeyword (cat : Catalog) (q : List Char)
    (acc : List Product × Bool) (kv : List Char × Option (List Char)) :
    List Product × Bool :=
  if containsSub kv.1 q then
    match kv.2 with
    | some cname =>
      if cat.categories.any (fun c => c.name == cname) then
        (acc.1.filter (fun p => p.categoryName == cname), true)
      else acc
    | none => (acc.1.filter (fun p => containsSub kv.1 (lowerL p.name)), true)
  else acc

/-- One fallback keyword narrowing (`chatbot/views.py:98`-`102`):
`Q(name__icontains=kw) | Q(description__icontains=kw)`. -/
def tokenFilterStep (acc : List Product) (t : List Char) : List Product :=
  acc.filter (fun p => containsSub t (lowerL p.name) || containsSub t (lowerL p.description))

/-- Python `str.split()` with no argument: split on whitespace runs,
dropping empty pieces. -/
def splitWsAux : List Char → List Char → List (List Char)
  | [], cur => if cur.isEmpty then [] else [cur.reverse]
  | c :: rest, cur =>
    if c.isWhitespace then
      if cur.isEmpty then splitWsAux rest []
      else cur.reverse :: splitWsAux rest []
    else splitWsAux rest (c :: cur)

def splitWs (s : List Char) : List (List Char) := splitWsAux s []

/-- The available products narrowed by the keyword table
(`chatbot/views.py:79`-`92`) and, when no category-style filter fired, by
the fallback ≥3-character tokens (`chatbot/views.py:94`-`102`). -/
def chatNarrowed (query : List Char) (cat : Catalog) : List Product :=
  let base := cat.products.filter (fun p => p.is_available)
  let acc := category_keywords.foldl (applyCategoryKeyword cat query) (base, false)
  if acc.2 then acc.1
  else ((splitWs query).filter (fun w => 3 ≤ w.length)).foldl tokenFilterStep acc.1

/-- The product set reaching `products_query[:5]` (`chatbot/views.py:55`,
`79`-`106`): the narrowed catalog, further filtered by the price ceiling
when `max_price` is truthy (present and nonzero). -/
def chatProducts (query : List Char) (cat : Catalog) : List Product :=
  match maxPriceOf query with
  | some v =>
    if v = 0 then chatNarrowed query cat
    else (chatNarrowed query cat).filter (fun p => p.price ≤ v)
  | none => chatNarrowed query cat

inductive ChatOut where
  | fixed (response : String)
  | productList (ps : List Product) (max_price : Option Int)
deriving DecidableEq

/-- `chatbot_query` (`chatbot/views.py:10`), POST path, up to response
formatting: lower-case the query; short-circuit with the fixed greeting/help
texts; otherwise deliver the first five products of the narrowed catalog
together with the extracted price ceiling (the inputs of the formatting
step). -/
def chatbot_query (raw : List Char) (cat : Catalog) : ChatOut :=
  let query := lowerL raw
  if greetings.any (fun g => containsSub g query) then .fixed greetingResponse
  else if help_keywords.any (fun k => containsSub k query) then .fixed helpResponse
  else .productList ((chatProducts query cat).take 5) (maxPriceOf query)

/-! Helper lemmas about the list-backed store. -/

/-- `find?` commutes with a map that never changes whether the predicate
holds (update of non-key fields of rows). -/
theorem find?_map_pres {α : Type} (f : α → α) (p : α → Bool)
    (hf : ∀ a, p (f a) = p a) :
    ∀ l : List α, (l.map f).find? p = (l.find? p).map f := by
  intro l
  induction l with
  | nil => rfl
  | cons a t ih =>
    by_cases h : p a = true
    · rw [List.map_cons, List.find?_cons_of_pos _ (by rw [hf]; exact h),
        List.find?_cons_of_pos _ h]
      rfl
    · rw [List.map_cons, List.find?_cons_of_neg _ (by rw [hf]; exact h),
        List.find?_cons_of_neg _ h, ih]

/-- A row deleted by predicate can no longer be found. -/
theorem find?_filter_not {α : Type} (p : α → Bool) (l : List α) :
    (l.filter (fun a => !(p a))).find? p = none := by
  rw [List.find?_eq_none]
  intro x hx hpx
  have h2 := (List.mem_filter.mp hx).2
  rw [hpx] at h2
  exact Bool.noConfusion h2

/-! C7: greeting short-circuit of the chatbot. -/

/-- C7 — every query whose lower-casing contains a phrase of the fixed
greeting set makes `chatbot_query` answer exactly the fixed greeting text,
for any catalog; in particular the answer is independent of the catalog, so
no catalog lookup, price filter or keyword filter can influence it. -/
theorem chatbot_greeting_c7 (raw : List Char) (cat cat2 : Catalog)
    (h : greetings.any (fun g => containsSub g (lowerL raw)) = true) :
    chatbot_query raw cat = ChatOut.fixed greetingResponse ∧
    chatbot_query raw cat = chatbot_query raw cat2 := by
  simp only [chatbot_query]
  rw [h]
  exact ⟨rfl, rfl⟩

/-- C7 witness: the concrete query `"hola, busco un teclado"` against two
different catalogs. -/
theorem chatbot_greeting_c7_witness :
    greetings.any (fun g => containsSub g (lowerL "hola, busco un teclado".data)) = true ∧
    (chatbot_query "hola, busco un teclado".data ⟨[], []⟩ = ChatOut.fixed greetingResponse ∧
      chatbot_query "hola, busco un teclado".data ⟨[], []⟩ =
        chatbot_query "hola, busco un teclado".data
          ⟨[{ id := 1, name := "teclado".data, description := [],
              categoryName := "Periféricos".data, price := 100, is_available := true }],
            [{ name := "Periféricos".data, is_active := true }]⟩) :=
  ⟨by decide, chatbot_greeting_c7 "hola, busco un teclado".data ⟨[], []⟩
    ⟨[{ id := 1, name := "teclado".data, description := [],
        categoryName := "Periféricos".data, price := 100, is_available := true }],
      [{ name := "Periféricos".data, is_active := true }]⟩ (by decide)⟩

/-! C6: checkout field validation. -/

/-- C6 — on a non-empty cart, the checkout POST requires each of the nine
`requiredFields` to be present and non-empty: when some field is missing the
response is the validation error naming the first missing field in the fixed
source order and the store is untouched (no Order, no OrderItems, no cart
change); when none is missing the order is created. -/
theorem checkout_fields_c6 (s : Store) (cid uid oid : Nat)
    (post : List (String × String))
    (hne : (cartItemsOf s cid).length ≠ 0) :
    (∀ f, requiredFields.find? (fieldMissing post) = some f →
      checkout s cid uid post oid = (s, .fieldError f)) ∧
    (requiredFields.find? (fieldMissing post) = none →
      (checkout s cid uid post oid).2 = .created oid) := by
  constructor
  · intro f hf
    unfold checkout
    rw [if_neg hne, hf]
  · intro hf
    unfold checkout
    rw [if_neg hne, hf]

def c6Store : Store :=
  { products := [⟨1, [], [], [], 100, true⟩],
    cartItems := [⟨1, 9, 1, 2⟩], orders := [], orderItems := [] }

/-- A POST body whose first missing field (absent or empty) is `"phone"`. -/
def c6Post : List (String × String) :=
  [("first_name", "Ada"), ("last_name", "L"), ("email", "a@b"), ("phone", ""),
   ("address", "x"), ("city", "y"), ("country", "z"), ("postal_code", "1"),
   ("payment_method", "card")]

/-- C6 witness: the empty `phone` field is the first one rejected and the
store is left untouched. -/
theorem checkout_fields_c6_witness :
    (cartItemsOf c6Store 9).length ≠ 0 ∧
    checkout c6Store 9 1 c6Post 1 = (c6Store, .fieldError "phone") :=
  ⟨by decide,
   (checkout_fields_c6 c6Store 9 1 1 c6Post (by decide)).1 "phone" (by decide)⟩

/-! C10: unknown update actions are harmless. -/

/-- C10 — for an existing cart item and an action outside
increase/decrease/remove, `update_cart` leaves the store untouched and still
answers the success JSON carrying the item's current quantity, item total
and the unchanged cart totals. -/
theorem update_cart_unknown_c10 (s : Store) (itemId : Nat) (ci : CartItem)
    (action : String)
    (hfind : s.cartItems.find? (fun c => c.id == itemId) = some ci)
    (h1 : action ≠ "increase") (h2 : action ≠ "decrease") (h3 : action ≠ "remove") :
    update_cart s itemId action =
      (s, .updated (get_cost s ci) ci.quantity (get_total_price s ci.cartId)
        (get_total_items s ci.cartId)) := by
  unfold update_cart
  rw [hfind]
  simp only [if_neg h1, if_neg h2, if_neg h3]

/-- C10 witness: action `"banana"` on a concrete two-item cart. -/
theorem update_cart_unknown_c10_witness :
    c6Store.cartItems.find? (fun c => c.id == 1) = some ⟨1, 9, 1, 2⟩ ∧
    update_cart c6Store 1 "banana" =
      (c6Store, .updated (get_cost c6Store ⟨1, 9, 1, 2⟩) 2
        (get_total_price c6Store 9) (get_total_items c6Store 9)) :=
  ⟨by decide,
   update_cart_unknown_c10 c6Store 1 ⟨1, 9, 1, 2⟩ "banana" (by decide)
     (by decide) (by decide) (by decide)⟩

/-! C3: add_to_cart performs no quantity validation. -/

def c3Product : Product := ⟨1, [], [], [], 100, true⟩

def c3Store : Store :=
  { products := [c3Product], cartItems := [], orders := [], orderItems := [] }

/-- C3 counterexample — adding quantity 0 of an available product does not
fail: the view reports success and persists a brand-new CartItem whose
quantity is 0, so the claim "fails with InvalidQuantity and neither creates
nor modifies a CartItem" is false on the code. -/
theorem add_to_cart_c3_cex :
    (add_to_cart c3Store 7 42 1 0).2 = AddResp.added 0 0 ∧
    (add_to_cart c3Store 7 42 1 0).1.cartItems = [⟨42, 7, 1, 0⟩] := by decide

/-- C3 amended — `add_to_cart` validates nothing about the quantity: for an
available product with no existing row in the cart, any quantity whatsoever
(0 and negatives included) is persisted verbatim as a new CartItem and the
response is the success JSON, never a not-found error and never any
InvalidQuantity failure (no such outcome exists in the view). -/
theorem add_to_cart_no_validation_c3 (s : Store) (cid freshId pid : Nat)
    (q : Int) (p : Product)
    (hp : s.products.find? (fun x => x.id == pid && x.is_available) = some p)
    (hno : s.cartItems.find? (fun ci => ci.cartId == cid && ci.productId == pid) = none) :
    (add_to_cart s cid freshId pid q).1.cartItems =
      s.cartItems ++ [⟨freshId, cid, pid, q⟩] ∧
    (add_to_cart s cid freshId pid q).2 ≠ AddResp.notFound := by
  unfold add_to_cart
  rw [hp, hno]
  exact ⟨rfl, fun h => AddResp.noConfusion h⟩

/-- C3 witness: quantity `-2` (strictly less than 1) is accepted and stored. -/
theorem add_to_cart_no_validation_c3_witness :
    c3Store.products.find? (fun x => x.id == 1 && x.is_available) = some c3Product ∧
    c3Store.cartItems.find? (fun ci => ci.cartId == 7 && ci.productId == 1) = none ∧
    ((add_to_cart c3Store 7 42 1 (-2)).1.cartItems =
        c3Store.cartItems ++ [⟨42, 7, 1, -2⟩] ∧
      (add_to_cart c3Store 7 42 1 (-2)).2 ≠ AddResp.notFound) :=
  ⟨by decide, by decide,
   add_to_cart_no_validation_c3 c3Store 7 42 1 (-2) c3Product (by decide) (by decide)⟩

/-! C9: payment_cancel only flips payment_status. -/

/-- C9 — for an order owned by the acting user, `payment_cancel` sets its
`payment_status` to `"fallido"` and changes nothing else: the record found
afterwards differs from the old one in `payment_status` alone (so fulfillment
status, payment_reference, total_paid and every shipping/contact field are
kept), and the products, cart items and order items of the store are
untouched (in particular the emptied cart is not restored). -/
theorem payment_cancel_c9 (s : Store) (oid uid : Nat) (o : Order)
    (h : findOrder s oid uid = some o) :
    (payment_cancel s oid uid).2 = PayResp.redirectCheckout ∧
    (payment_cancel s oid uid).1.products = s.products ∧
    (payment_cancel s oid uid).1.cartItems = s.cartItems ∧
    (payment_cancel s oid uid).1.orderItems = s.orderItems ∧
    findOrder (payment_cancel s oid uid).1 oid uid =
      some { o with payment_status := "fallido" } := by
  have h' : s.orders.find? (fun x => x.id == oid && x.userId == uid) = some o := h
  have hp : (o.id == oid && o.userId == uid) = true :=
    List.find?_some (p := fun x : Order => x.id == oid && x.userId == uid) h'
  unfold payment_cancel
  rw [show findOrder s oid uid = some o from h]
  refine ⟨rfl, rfl, rfl, rfl, ?_⟩
  unfold findOrder
  rw [find?_map_pres _ _ ?_ s.orders]
  · rw [show s.orders.find? (fun x => x.id == oid && x.userId == uid) = some o from h]
    have hp2 : o.id = oid ∧ o.userId = uid := by simpa using hp
    simp [hp2.1, hp2.2]
  · intro a
    by_cases ha : (a.id == oid && a.userId == uid) = true
    · rw [if_pos ha]
    · rw [if_neg ha]

def c9Order : Order :=
  { id := 1, userId := 1, first_name := "Ada", last_name := "L", email := "a@b",
    phone := "555", address := "Calle 1", city := "Cali", country := "CO",
    postal_code := "760001", total_paid := 500, payment_method := "card",
    payment_status := "pendiente", payment_reference := "", status := "pendiente" }

def c9Store : Store :=
  { products := [c3Product], cartItems := [],
    orders := [c9Order], orderItems := [⟨1, 1, 100, 5⟩] }

/-- C9 witness: cancelling the concrete order 1 of user 1. -/
theorem payment_cancel_c9_witness :
    findOrder c9Store 1 1 = some c9Order ∧
    ((payment_cancel c9Store 1 1).2 = PayResp.redirectCheckout ∧
      (payment_cancel c9Store 1 1).1.products = c9Store.products ∧
      (payment_cancel c9Store 1 1).1.cartItems = c9Store.cartItems ∧
      (payment_cancel c9Store 1 1).1.orderItems = c9Store.orderItems ∧
      findOrder (payment_cancel c9Store 1 1).1 1 1 =
        some { c9Order with payment_status := "fallido" }) :=
  ⟨by decide, payment_cancel_c9 c9Store 1 1 c9Order (by decide)⟩

/-! C2: payment idempotency. -/

def c2Order : Order :=
  { c9Order with
      payment_status := "completado",
      payment_reference := "PAY-0123456789ABCDEF",
      status := "procesando" }

def c2Store : Store :=
  { products := [], cartItems := [], orders := [c2Order], orderItems := [] }

/-- C2 counterexample — `payment_execute` is not idempotent: invoked again on
an order whose payment is already `completado`, with no posted `payment_id`,
it generates a fresh reference and overwrites `payment_reference`, so the
reference after the second call differs from its value after the first. -/
theorem payment_execute_c2_cex :
    c2Order.payment_status = "completado" ∧
    (findOrder (payment_execute c2Store 1 1 "" "FEDCBA9876543210").1 1 1).map
        Order.payment_reference = some "PAY-FEDCBA9876543210" ∧
    some "PAY-FEDCBA9876543210" ≠ some c2Order.payment_reference := by decide

/-- C2 amended — the idempotent re-entry guard lives in `payment_process`,
not `payment_execute`: on an order whose payment is already `completado`,
`payment_process` redirects to the success view leaving the store untouched;
and `payment_execute` leaves the payment reference independent of the
generated fresh id only when a non-empty `payment_id` is supplied, in which
case the stored reference is exactly that id, so repeating the call with the
same id changes nothing. -/
theorem payment_idempotent_c2 (s : Store) (oid uid : Nat) (o : Order)
    (h : findOrder s oid uid = some o)
    (hdone : o.payment_status = "completado") :
    payment_process s oid uid = (s, PayResp.redirectSuccess oid) ∧
    (∀ pid : String, pid ≠ "" → ∀ freshHex : String,
      (findOrder (payment_execute s oid uid pid freshHex).1 oid uid).map
        Order.payment_reference = some pid) := by
  have h' : s.orders.find? (fun x => x.id == oid && x.userId == uid) = some o := h
  have hp : (o.id == oid && o.userId == uid) = true :=
    List.find?_some (p := fun x : Order => x.id == oid && x.userId == uid) h'
  have hp2 : o.id = oid ∧ o.userId = uid := by simpa using hp
  constructor
  · unfold payment_process
    simp only [h]
    rw [if_pos hdone]
  · intro pid hpid freshHex
    unfold payment_execute
    simp only [h]
    rw [if_neg hpid]
    unfold findOrder
    rw [find?_map_pres _ _ ?_ s.orders]
    · rw [h']
      simp [hp2.1, hp2.2]
    · intro a
      by_cases ha : (a.id == oid && a.userId == uid) = true
      · rw [if_pos ha]
      · rw [if_neg ha]

/-- C2 witness: `payment_process` on the completed concrete order 1
short-circuits, and a supplied `payment_id` is stored verbatim. -/
theorem payment_idempotent_c2_witness :
    findOrder c2Store 1 1 = some c2Order ∧
    c2Order.payment_status = "completado" ∧
    (payment_process c2Store 1 1 = (c2Store, PayResp.redirectSuccess 1) ∧
      (findOrder (payment_execute c2Store 1 1 "EXT-77" "AAAA000011112222").1 1 1).map
        Order.payment_reference = some "EXT-77") :=
  ⟨by decide, by decide, by
    have h := payment_idempotent_c2 c2Store 1 1 c2Order (by decide) (by decide)
    exact ⟨h.1, h.2 "EXT-77" (by decide) "AAAA000011112222"⟩⟩

/-! C1: checkout is not atomic. -/

def c1Store : Store :=
  { products := [⟨1, [], [], [], 100, true⟩, ⟨2, [], [], [], 200, true⟩],
    cartItems := [⟨1, 9, 1, 1⟩, ⟨2, 9, 2, 2⟩], orders := [], orderItems := [] }

def c1Post : List (String × String) :=
  [("first_name", "Ada"), ("last_name", "L"), ("email", "a@b"), ("phone", "5"),
   ("address", "x"), ("city", "y"), ("country", "z"), ("postal_code", "1"),
   ("payment_method", "card")]

/-- C1 — the checkout POST body is a plain sequence of per-row committed
writes with no surrounding transaction: on a two-line cart the completed run
does produce the all-or-nothing success state (one Order, one OrderItem per
cart line, empty cart), but stopping after the first two committed writes —
the state the database is left in if the second `OrderItem.objects.create`
fails, since neither `transaction.atomic` nor `ATOMIC_REQUESTS` is present —
leaves an Order with only one of its two OrderItems and a still-full cart as
a final state, exactly the intermediate state the claim rules out. -/
theorem checkout_not_atomic_c1 :
    checkout c1Store 9 1 c1Post 1 =
      (runSteps c1Store (checkoutWrites c1Store 9 1 c1Post 1), .created 1) ∧
    ((runSteps c1Store (checkoutWrites c1Store 9 1 c1Post 1)).orders.length = 1 ∧
      (runSteps c1Store (checkoutWrites c1Store 9 1 c1Post 1)).orderItems.length = 2 ∧
      cartItemsOf (runSteps c1Store (checkoutWrites c1Store 9 1 c1Post 1)) 9 = []) ∧
    ((runSteps c1Store ((checkoutWrites c1Store 9 1 c1Post 1).take 2)).orders.length = 1 ∧
      (runSteps c1Store ((checkoutWrites c1Store 9 1 c1Post 1).take 2)).orderItems.length = 1 ∧
      (cartItemsOf (runSteps c1Store ((checkoutWrites c1Store 9 1 c1Post 1).take 2)) 9).length = 2) := by
  decide

/-! C4: update_cart quantity discipline. -/

/-- Helper: every `update_cart` action keeps every persisted quantity at
least 1, provided every quantity was at least 1 before; primary keys are
unique (`Nodup` of the id column), as the database guarantees. -/
theorem update_cart_keeps_pos (s : Store) (itemId : Nat) (action : String)
    (hnodup : (s.cartItems.map CartItem.id).Nodup)
    (hall : ∀ c ∈ s.cartItems, 1 ≤ c.quantity) :
    ∀ c ∈ (update_cart s itemId action).1.cartItems, 1 ≤ c.quantity := by
  intro c hc
  cases hfind : s.cartItems.find? (fun ci => ci.id == itemId) with
  | none =>
    simp only [update_cart, hfind] at hc
    exact hall c hc
  | some ci =>
    have hmem : ci ∈ s.cartItems := List.mem_of_find?_eq_some hfind
    have hid : (ci.id == itemId) = true :=
      List.find?_some (p := fun x : CartItem => x.id == itemId) hfind
    simp only [update_cart, hfind] at hc
    by_cases hA : action = "increase"
    · rw [if_pos hA] at hc
      simp only at hc
      rcases List.mem_map.mp hc with ⟨a, ha, rfl⟩
      by_cases hb : (a.id == itemId) = true
      · rw [if_pos hb]
        have := hall a ha
        simp only
        omega
      · rw [if_neg hb]
        exact hall a ha
    · rw [if_neg hA] at hc
      by_cases hB : action = "decrease"
      · rw [if_pos hB] at hc
        by_cases hgt : ci.quantity > 1
        · rw [if_pos hgt] at hc
          simp only at hc
          rcases List.mem_map.mp hc with ⟨a, ha, rfl⟩
          by_cases hb : (a.id == itemId) = true
          · rw [if_pos hb]
            have hsame : a = ci := by
              refine List.inj_on_of_nodup_map hnodup ha hmem ?_
              have h1 : a.id = itemId := by simpa using hb
              have h2 : ci.id = itemId := by simpa using hid
              rw [h1, h2]
            subst hsame
            simp only
            omega
          · rw [if_neg hb]
            exact hall a ha
        · rw [if_neg hgt] at hc
          simp only at hc
          exact hall c (List.mem_filter.mp hc).1
      · rw [if_neg hB] at hc
        by_cases hC : action = "remove"
        · rw [if_pos hC] at hc
          simp only at hc
          exact hall c (List.mem_filter.mp hc).1
        · rw [if_neg hC] at hc
          exact hall c hc

/-- C4 — for an existing cart item (primary keys unique, as the database
guarantees): `increase` adds exactly 1 to its quantity; `decrease` subtracts
exactly 1 when the current quantity exceeds 1 and deletes the row when it is
1; `remove` deletes the row regardless of quantity; and after any
`update_cart` action no persisted CartItem has quantity 0 or negative,
provided none had before. -/
theorem update_cart_c4 (s : Store) (itemId : Nat) (ci : CartItem)
    (hnodup : (s.cartItems.map CartItem.id).Nodup)
    (hfind : s.cartItems.find? (fun c => c.id == itemId) = some ci) :
    (update_cart s itemId "increase").1.cartItems.find? (fun c => c.id == itemId) =
      some { ci with quantity := ci.quantity + 1 } ∧
    (1 < ci.quantity →
      (update_cart s itemId "decrease").1.cartItems.find? (fun c => c.id == itemId) =
        some { ci with quantity := ci.quantity - 1 }) ∧
    (ci.quantity = 1 →
      (update_cart s itemId "decrease").1.cartItems.find? (fun c => c.id == itemId) = none) ∧
    (update_cart s itemId "remove").1.cartItems.find? (fun c => c.id == itemId) = none ∧
    (∀ action : String, (∀ c ∈ s.cartItems, 1 ≤ c.quantity) →
      ∀ c ∈ (update_cart s itemId action).1.cartItems, 1 ≤ c.quantity) := by
  have hid : ci.id = itemId := by
    simpa using List.find?_some (p := fun x : CartItem => x.id == itemId) hfind
  refine ⟨?_, ?_, ?_, ?_, fun action hall => update_cart_keeps_pos s itemId action hnodup hall⟩
  · simp only [update_cart, hfind, String.reduceEq, reduceIte]
    rw [find?_map_pres (fun c => if c.id == itemId then { c with quantity := c.quantity + 1 } else c)
      (fun c => c.id == itemId) (by intro a; by_cases hb : (a.id == itemId) = true <;> simp [hb])
      s.cartItems]
    rw [hfind]
    simp [hid]
  · intro hgt
    simp only [update_cart, hfind, String.reduceEq, reduceIte]
    rw [if_pos hgt]
    rw [find?_map_pres (fun c => if c.id == itemId then { c with quantity := c.quantity - 1 } else c)
      (fun c => c.id == itemId) (by intro a; by_cases hb : (a.id == itemId) = true <;> simp [hb])
      s.cartItems]
    rw [hfind]
    simp [hid]
  · intro heq
    simp only [update_cart, hfind, String.reduceEq, reduceIte]
    rw [if_neg (by omega)]
    exact find?_filter_not (fun c => c.id == itemId) s.cartItems
  · simp only [update_cart, hfind, String.reduceEq, reduceIte]
    exact find?_filter_not (fun c => c.id == itemId) s.cartItems

def c4Store : Store :=
  { products := [⟨1, [], [], [], 100, true⟩, ⟨2, [], [], [], 200, true⟩],
    cartItems := [⟨1, 9, 1, 2⟩, ⟨2, 9, 2, 1⟩], orders := [], orderItems := [] }

/-- C4 witness: item 1 with quantity 2 in a two-line cart. -/
theorem update_cart_c4_witness :
    (c4Store.cartItems.map CartItem.id).Nodup ∧
    c4Store.cartItems.find? (fun c => c.id == 1) = some ⟨1, 9, 1, 2⟩ ∧
    ((update_cart c4Store 1 "increase").1.cartItems.find? (fun c => c.id == 1) =
        some ⟨1, 9, 1, 3⟩ ∧
      ((1 : Int) < 2 →
        (update_cart c4Store 1 "decrease").1.cartItems.find? (fun c => c.id == 1) =
          some ⟨1, 9, 1, 1⟩) ∧
      ((2 : Int) = 1 →
        (update_cart c4Store 1 "decrease").1.cartItems.find? (fun c => c.id == 1) = none) ∧
      (update_cart c4Store 1 "remove").1.cartItems.find? (fun c => c.id == 1) = none ∧
      (∀ action : String, (∀ c ∈ c4Store.cartItems, 1 ≤ c.quantity) →
        ∀ c ∈ (update_cart c4Store 1 action).1.cartItems, 1 ≤ c.quantity)) :=
  ⟨by decide, by decide, update_cart_c4 c4Store 1 ⟨1, 9, 1, 2⟩ (by decide) (by decide)⟩

/-! C5: totals are live, order snapshots are frozen. -/

/-- A price edit never changes whether a product row matches an id lookup. -/
theorem priceOf_set_pred (pid : Nat) (np : Int) :
    ∀ a : Product, ((fun q : Product => q.id == pid)
        (if a.id == pid then { a with price := np } else a)) =
      ((fun q : Product => q.id == pid) a) := by
  intro a
  by_cases hb : (a.id == pid) = true <;> simp [hb]

/-- After `setProductPrice`, the edited product's current price is the new
one. -/
theorem priceOf_set_same (s : Store) (pid : Nat) (np : Int) (p : Product)
    (hp : productById s pid = some p) :
    priceOf (setProductPrice s pid np) pid = np := by
  have hpid : p.id = pid := by
    simpa using List.find?_some (p := fun q : Product => q.id == pid) hp
  unfold priceOf productById setProductPrice
  simp only
  rw [find?_map_pres (fun q => if q.id == pid then { q with price := np } else q)
    (fun q => q.id == pid) (priceOf_set_pred pid np) s.products]
  rw [show s.products.find? (fun q => q.id == pid) = some p from hp]
  simp [hpid]

/-- After `setProductPrice`, every other product's current price is
unchanged. -/
theorem priceOf_set_other (s : Store) (pid : Nat) (np : Int) (x : Nat)
    (hx : x ≠ pid) :
    priceOf (setProductPrice s pid np) x = priceOf s x := by
  unfold priceOf productById setProductPrice
  simp only
  rw [find?_map_pres (fun q => if q.id == pid then { q with price := np } else q)
    (fun q => q.id == x) ?_ s.products]
  · cases h : s.products.find? (fun q => q.id == x) with
    | none => rfl
    | some q =>
      have hqx : q.id = x := by
        simpa using List.find?_some (p := fun r : Product => r.id == x) h
      have hq2 : ¬ q.id = pid := by rw [hqx]; exact hx
      simp [hq2]
  · intro a
    by_cases hb : (a.id == pid) = true
    · have : a.id = pid := by simpa using hb
      simp [this]
    · simp [hb]

/-- Changing the price used for one product shifts a quantity-weighted sum
by the total referenced quantity times the price delta. -/
theorem sum_shift (pid : Nat) (pr pr2 : Nat → Int) (np oldp : Int)
    (hsame : pr2 pid = np) (hother : ∀ x, x ≠ pid → pr2 x = pr x)
    (hold : pr pid = oldp) :
    ∀ l : List CartItem,
      (l.map (fun ci => ci.quantity * pr2 ci.productId)).sum =
        (l.map (fun ci => ci.quantity * pr ci.productId)).sum +
          ((l.filter (fun ci => ci.productId == pid)).map CartItem.quantity).sum
            * (np - oldp) := by
  intro l
  induction l with
  | nil => simp
  | cons a t ih =>
    by_cases hpid : a.productId = pid
    · simp only [List.map_cons, List.sum_cons]
      rw [List.filter_cons_of_pos (by simp [hpid]), List.map_cons, List.sum_cons,
        hpid, hsame, hold, ih]
      ring
    · simp only [List.map_cons, List.sum_cons]
      rw [List.filter_cons_of_neg (by simp [hpid]), hother _ hpid, ih]
      ring

/-- C5 — `get_total_price` is by definition the sum over the cart's items of
quantity times the product's current price at read time; an admin price edit
afterwards leaves the orders table and the order-items table (hence every
`total_paid` and every snapshotted OrderItem price) untouched, while the
live cart total shifts by the cart's referenced quantity times the price
delta — in particular it really changes whenever the cart references the
product with nonzero total quantity and the price actually changed. -/
theorem price_snapshot_c5 (s : Store) (cid pid : Nat) (np : Int) (p : Product)
    (hp : productById s pid = some p) :
    get_total_price s cid =
      ((cartItemsOf s cid).map (fun ci => ci.quantity * priceOf s ci.productId)).sum ∧
    (setProductPrice s pid np).orders = s.orders ∧
    (setProductPrice s pid np).orderItems = s.orderItems ∧
    get_total_price (setProductPrice s pid np) cid =
      get_total_price s cid +
        (((cartItemsOf s cid).filter (fun ci => ci.productId == pid)).map
          CartItem.quantity).sum * (np - p.price) ∧
    ((((cartItemsOf s cid).filter (fun ci => ci.productId == pid)).map
        CartItem.quantity).sum ≠ 0 →
      np ≠ p.price →
      get_total_price (setProductPrice s pid np) cid ≠ get_total_price s cid) := by
  have h4 : get_total_price (setProductPrice s pid np) cid =
      get_total_price s cid +
        (((cartItemsOf s cid).filter (fun ci => ci.productId == pid)).map
          CartItem.quantity).sum * (np - p.price) := by
    have hone : cartItemsOf (setProductPrice s pid np) cid = cartItemsOf s cid := rfl
    unfold get_total_price
    rw [hone]
    exact sum_shift pid (priceOf s) (priceOf (setProductPrice s pid np)) np p.price
      (priceOf_set_same s pid np p hp) (fun x hx => priceOf_set_other s pid np x hx)
      (by unfold priceOf; rw [hp]; rfl) (cartItemsOf s cid)
  refine ⟨rfl, rfl, rfl, h4, ?_⟩
  intro hQ hne heq
  rw [h4] at heq
  have h0 : (((cartItemsOf s cid).filter (fun ci => ci.productId == pid)).map
      CartItem.quantity).sum * (np - p.price) = 0 := by linarith
  rcases mul_eq_zero.mp h0 with hz | hz
  · exact hQ hz
  · exact hne (by linarith)

def c5Product : Product := ⟨1, [], [], [], 100, true⟩

def c5Store : Store :=
  { products := [c5Product], cartItems := [⟨1, 5, 1, 2⟩],
    orders := [c9Order], orderItems := [⟨1, 1, 100, 2⟩] }

/-- C5 witness: raising product 1's price from 100 to 150 under a cart
holding 2 units. -/
theorem price_snapshot_c5_witness :
    productById c5Store 1 = some c5Product ∧
    (get_total_price c5Store 5 =
        ((cartItemsOf c5Store 5).map
          (fun ci => ci.quantity * priceOf c5Store ci.productId)).sum ∧
      (setProductPrice c5Store 1 150).orders = c5Store.orders ∧
      (setProductPrice c5Store 1 150).orderItems = c5Store.orderItems ∧
      get_total_price (setProductPrice c5Store 1 150) 5 =
        get_total_price c5Store 5 +
          (((cartItemsOf c5Store 5).filter (fun ci => ci.productId == 1)).map
            CartItem.quantity).sum * (150 - c5Product.price) ∧
      ((((cartItemsOf c5Store 5).filter (fun ci => ci.productId == 1)).map
          CartItem.quantity).sum ≠ 0 →
        (150 : Int) ≠ c5Product.price →
        get_total_price (setProductPrice c5Store 1 150) 5 ≠ get_total_price c5Store 5)) :=
  ⟨by decide, price_snapshot_c5 c5Store 5 1 150 c5Product (by decide)⟩

/-! C8: the price ceiling pipeline. -/

/-- Each keyword-table step only narrows the product list. -/
theorem applyCategoryKeyword_sublist (cat : Catalog) (q : List Char)
    (acc : List Product × Bool) (kv : List Char × Option (List Char)) :
    (applyCategoryKeyword cat q acc kv).1.Sublist acc.1 := by
  obtain ⟨k, copt⟩ := kv
  unfold applyCategoryKeyword
  by_cases h : containsSub k q = true
  · rw [if_pos h]
    cases copt with
    | none => exact List.filter_sublist _
    | some cname =>
      dsimp only
      by_cases h2 : (cat.categories.any (fun c => c.name == cname)) = true
      · rw [if_pos h2]
        exact List.filter_sublist _
      · rw [if_neg h2]
  · rw [if_neg h]

/-- The whole keyword loop only narrows the product list. -/
theorem kwFold_sublist (cat : Catalog) (q : List Char) :
    ∀ (kvs : List (List Char × Option (List Char))) (acc : List Product × Bool),
      (kvs.foldl (applyCategoryKeyword cat q) acc).1.Sublist acc.1 := by
  intro kvs
  induction kvs with
  | nil => intro acc; exact List.Sublist.refl _
  | cons kv t ih =>
    intro acc
    exact (ih (applyCategoryKeyword cat q acc kv)).trans
      (applyCategoryKeyword_sublist cat q acc kv)

/-- The fallback token loop only narrows the product list. -/
theorem tokenFold_sublist :
    ∀ (ts : List (List Char)) (l : List Product),
      (ts.foldl tokenFilterStep l).Sublist l := by
  intro ts
  induction ts with
  | nil => intro l; exact List.Sublist.refl _
  | cons t ts2 ih =>
    intro l
    exact (ih (tokenFilterStep l t)).trans (List.filter_sublist _)

/-- The narrowed catalog is a sublist of the available products in their
natural order. -/
theorem chatNarrowed_sublist (q : List Char) (cat : Catalog) :
    (chatNarrowed q cat).Sublist (cat.products.filter (fun p => p.is_available)) := by
  simp only [chatNarrowed]
  by_cases h : (category_keywords.foldl (applyCategoryKeyword cat q)
      (cat.products.filter (fun p => p.is_available), false)).2 = true
  · rw [if_pos h]
    exact kwFold_sublist cat q category_keywords _
  · rw [if_neg h]
    exact (tokenFold_sublist _ _).trans (kwFold_sublist cat q category_keywords _)

/-- The delivered product set is a sublist of the available products in
their natural order. -/
theorem chatProducts_sublist (q : List Char) (cat : Catalog) :
    (chatProducts q cat).Sublist (cat.products.filter (fun p => p.is_available)) := by
  unfold chatProducts
  cases hm : maxPriceOf q with
  | none => exact chatNarrowed_sublist q cat
  | some v =>
    dsimp only
    by_cases hv : v = 0
    · rw [if_pos hv]
      exact chatNarrowed_sublist q cat
    · rw [if_neg hv]
      exact (List.filter_sublist _).trans (chatNarrowed_sublist q cat)

/-- When a nonzero ceiling was extracted, every delivered product respects
it. -/
theorem chatProducts_price (q : List Char) (cat : Catalog) (v : Int)
    (hm : maxPriceOf q = some v) (hv : v ≠ 0) :
    ∀ p ∈ chatProducts q cat, p.price ≤ v := by
  unfold chatProducts
  rw [hm]
  dsimp only
  intro p hp
  rw [if_neg hv] at hp
  simpa using (List.mem_filter.mp hp).2

/-- C8 amended — whenever the chatbot reaches the product branch, the
reported ceiling is exactly the first captured group of the price regex
times 1000; at most 5 products are returned; they form a sublist of the
available products in the catalog's natural order; and they all respect the
ceiling whenever it is nonzero (a ceiling of 0 is falsy in the view, so the
price filter is skipped in that single case). -/
theorem chatbot_price_c8 (raw : List Char) (cat : Catalog) (ps : List Product)
    (mp : Option Int)
    (h : chatbot_query raw cat = ChatOut.productList ps mp) :
    mp = maxPriceOf (lowerL raw) ∧
    ps.length ≤ 5 ∧
    ps.Sublist (cat.products.filter (fun p => p.is_available)) ∧
    (∀ v, mp = some v → v ≠ 0 → ∀ p ∈ ps, p.price ≤ v) := by
  simp only [chatbot_query] at h
  by_cases h1 : (greetings.any (fun g => containsSub g (lowerL raw))) = true
  · rw [if_pos h1] at h
    exact absurd h (by simp)
  · rw [if_neg h1] at h
    by_cases h2 : (help_keywords.any (fun k => containsSub k (lowerL raw))) = true
    · rw [if_pos h2] at h
      exact absurd h (by simp)
    · rw [if_neg h2] at h
      injection h with hps hmp
      subst hps
      subst hmp
      refine ⟨rfl, ?_, ?_, ?_⟩
      · rw [List.length_take]
        exact min_le_left _ _
      · exact (List.take_sublist _ _).trans (chatProducts_sublist _ _)
      · intro v hv hvne p hp
        exact chatProducts_price (lowerL raw) cat v hv hvne p
          ((List.take_sublist _ _).subset hp)

def c8cexProduct : Product :=
  ⟨1, "menosprecio xl".data, [], "Otros".data, 5000, true⟩

def c8cexCatalog : Catalog := { products := [c8cexProduct], categories := [] }

/-- C8 counterexample — the query `"menos de 0"` is matched by the price
regex (captured group `0`, ceiling 0 × 1000 = 0), yet the view's truthiness
test `if max_price:` skips the price filter for the value 0, so a product
priced 5000 > 0 is returned: the claim that every returned product respects
the extracted ceiling is false on the code. -/
theorem chatbot_price_c8_cex :
    priceSearch (lowerL "menos de 0".data) = some 0 ∧
    chatbot_query "menos de 0".data c8cexCatalog =
      ChatOut.productList [c8cexProduct] (some 0) ∧
    ¬(c8cexProduct.price ≤ 0) := by decide

def c8wProduct : Product :=
  ⟨1, "mouse gamer".data, [], "Periféricos".data, 3000, true⟩

def c8wCatalog : Catalog :=
  { products := [c8wProduct],
    categories := [{ name := "Periféricos".data, is_active := true }] }

/-- C8 witness: `"mouse menos de 5"` extracts the nonzero ceiling 5000 and
delivers the one matching product under it. -/
theorem chatbot_price_c8_witness :
    chatbot_query "mouse menos de 5".data c8wCatalog =
      ChatOut.productList [c8wProduct] (some 5000) ∧
    (some 5000 = maxPriceOf (lowerL "mouse menos de 5".data) ∧
      [c8wProduct].length ≤ 5 ∧
      [c8wProduct].Sublist (c8wCatalog.products.filter (fun p => p.is_available)) ∧
      (∀ v, (some 5000 : Option Int) = some v → v ≠ 0 →
        ∀ p ∈ [c8wProduct], p.price ≤ v)) :=
  ⟨by decide,
   chatbot_price_c8 "mouse menos de 5".data c8wCatalog [c8wProduct] (some 5000)
     (by decide)⟩
